import Mathlib

/-!
Shallow embedding of `custom_components/smartir/fan.py` (SmartIRFan): the fan
state machine, command-table resolution, dispatch through the IR/RF transport,
and the power-sensor reconciliation handler.

Conventions of the embedding:
* Python `None`-able string fields become `Option String` (`none` = Python `None`).
* Python truthiness on strings (`x or "default"`) treats `None` and `""` as falsy.
* The command table (`device_data['commands']`, a JSON object) is an association
  list from string keys to either an opaque payload or a nested speed table.
* Exceptions become explicit `PyError` values carried in the operation outcome;
  the transport's behaviour is a boolean parameter `sendFails` (the controller
  `send` either succeeds or raises).
* Each operation returns a `DispatchOutcome`: the mutated state, the list of
  payloads handed to `controller.send`, the log calls made, and the exception
  propagated to the caller (if any).
-/

namespace SmartIRFan

/-- `SPEED_OFF = "off"` from fan.py. -/
def SPEED_OFF : String := "off"

/-- `STATE_ON = "on"` from homeassistant.const. -/
def STATE_ON : String := "on"

/-- `STATE_OFF = "off"` from homeassistant.const. -/
def STATE_OFF : String := "off"

/-- A value in the JSON command table: either an opaque transmittable payload or
a nested direction sub-table mapping speed-level names to payloads. -/
inductive CmdNode where
  | payload (p : String)
  | table (entries : List (String × String))
deriving Repr, DecidableEq

/-- `device_data['commands']`: a JSON object, embedded as an association list. -/
abbrev Commands := List (String × CmdNode)

/-- Dictionary lookup on the top level of the command table; `none` means the
key is absent (a Python `KeyError` on subscripting). -/
def lookupNode (c : Commands) (k : String) : Option CmdNode :=
  match c with
  | [] => none
  | (k', v) :: rest => if k' = k then some v else lookupNode rest k

/-- Dictionary lookup in a direction sub-table (speed name to payload). -/
def lookupEntry (m : List (String × String)) (k : String) : Option String :=
  match m with
  | [] => none
  | (k', v) :: rest => if k' = k then some v else lookupEntry rest k

/-- Exceptions the embedded code can raise. -/
inductive PyError where
  | keyError
  | valueError
  | typeError
  | indexError
  | attributeError
deriving Repr, DecidableEq

/-- A `_LOGGER` call made by the embedded code. `exceptionLogged` is the
`_LOGGER.exception(e)` in `send_command`'s `except` clause. -/
inductive LogEntry where
  | exceptionLogged
deriving Repr, DecidableEq

/-- The mutable entity state: `_speed`, `_direction`, `_last_on_speed`,
`_oscillating`, `_on_by_remote`.  `_speed` is `Option String` because the
sensor handler assigns `self._speed = None`; `_oscillating` is `Option Bool`
because it stays `None` for devices without an `oscillate` command. -/
structure FanState where
  speed : Option String
  direction : Option String
  lastOnSpeed : Option String
  oscillating : Option Bool
  onByRemote : Bool
deriving Repr, DecidableEq

/-- Python `x or d` for an optional string `x`: `None` and `""` are falsy. -/
def pyOr (x : Option String) (d : String) : String :=
  match x with
  | none => d
  | some s => if s = "" then d else s

/-- Python truthiness of the `Option Bool` field `_oscillating` (`None` falsy). -/
def truthy (b : Option Bool) : Bool := b.getD false

/-- Result of one operation: the state after it, the payloads passed to
`self._controller.send`, the log calls, and the exception that propagated to
the caller (`none` when the operation returned normally). -/
structure DispatchOutcome where
  state : FanState
  sent : List CmdNode
  logged : List LogEntry
  raised : Option PyError
deriving Repr, DecidableEq

/-- The expression `self._commands[direction][speed]` (fan.py line 273).  A
missing dictionary key is a `KeyError`; subscripting a string payload with a
speed key is a `TypeError`; `dict[None]` (speed `None` after a sensor-ON
event) is a `KeyError` since JSON object keys are strings. -/
def dirSpeedLookup (c : Commands) (d : String) (sp : Option String) :
    Except PyError CmdNode :=
  match lookupNode c d with
  | none => .error .keyError
  | some (.payload _) => .error .typeError
  | some (.table m) =>
      match sp with
      | none => .error .keyError
      | some spd =>
          match lookupEntry m spd with
          | some v => .ok (.payload v)
          | none => .error .keyError

/-- The command-resolution part of `send_command` (fan.py lines 268-273):

    if speed == SPEED_OFF:
        command = self._commands["off"]
    elif oscillating:
        command = self._commands["oscillate"]
    else:
        command = self._commands[direction][speed]

with `direction = self._direction or "default"`. -/
def resolveCommand (c : Commands) (s : FanState) : Except PyError CmdNode :=
  if s.speed = some SPEED_OFF then
    match lookupNode c "off" with
    | some v => .ok v
    | none => .error .keyError
  else if truthy s.oscillating then
    match lookupNode c "oscillate" with
    | some v => .ok v
    | none => .error .keyError
  else
    dirSpeedLookup c (pyOr s.direction "default") s.speed

/-- `SmartIRFan.send_command` (fan.py lines 261-278).  Under the per-device
lock it first clears `_on_by_remote`, resolves the command (a resolution
failure propagates to the caller uncaught and unlogged, with the transport
never invoked), then calls `controller.send(command)` inside `try/except`:
a transport failure is logged via `_LOGGER.exception` and swallowed. -/
def send_command (c : Commands) (sendFails : Bool) (s : FanState) : DispatchOutcome :=
  let s1 : FanState := { s with onByRemote := false }
  match resolveCommand c s1 with
  | .error e => { state := s1, sent := [], logged := [], raised := some e }
  | .ok cmd =>
      if sendFails then
        { state := s1, sent := [cmd], logged := [.exceptionLogged], raised := none }
      else
        { state := s1, sent := [cmd], logged := [], raised := none }

/-- Python `list.index(item)`: the 0-based index of the first occurrence. -/
def listIndex (l : List String) (item : String) : Nat :=
  match l with
  | [] => 0
  | x :: rest => if x = item then 0 else listIndex rest item + 1

/-- `homeassistant.util.percentage.ordered_list_item_to_percentage`, the
imported helper: position of `item` in the ordered list (1-based first
occurrence) times 100, floor-divided by the list length; `none` is the
`ValueError` raised when `item` is not in the list.  Matches the spec's
even-bucket policy. -/
def ordered_list_item_to_percentage (l : List String) (item : String) : Option Nat :=
  if item ∈ l then some ((listIndex l item + 1) * 100 / l.length) else none

/-- The scan loop of `percentage_to_ordered_list_item`: return the first
element whose 1-based position `pos` satisfies `percentage ≤ pos * 100 / n`. -/
def ptoliGo (n percentage : Nat) : List String → Nat → Option String
  | [], _ => none
  | sp :: rest, pos =>
      if percentage ≤ pos * 100 / n then some sp
      else ptoliGo n percentage rest (pos + 1)

/-- `homeassistant.util.percentage.percentage_to_ordered_list_item`, the
imported helper: first item whose bucket upper bound reaches `percentage`,
falling back to the last item; `none` is the `ValueError` on an empty list. -/
def percentage_to_ordered_list_item (l : List String) (percentage : Nat) : Option String :=
  if l.length = 0 then none
  else
    match ptoliGo l.length percentage l 1 with
    | some sp => some sp
    | none => l.getLast?

/-- `SmartIRFan.async_set_percentage` (fan.py lines 223-235): `percentage == 0`
forces `_speed = SPEED_OFF`, otherwise `_speed` becomes the mapped list item
(a `ValueError` from the empty-list case propagates before any mutation);
a non-off result updates `_last_on_speed`; then `send_command` runs. -/
def async_set_percentage (speedList : List String) (c : Commands) (sendFails : Bool)
    (s : FanState) (percentage : Nat) : DispatchOutcome :=
  let newSpeed : Except PyError String :=
    if percentage = 0 then .ok SPEED_OFF
    else
      match percentage_to_ordered_list_item speedList percentage with
      | none => .error .valueError
      | some sp => .ok sp
  match newSpeed with
  | .error e => { state := s, sent := [], logged := [], raised := some e }
  | .ok sp =>
      let s1 : FanState := { s with speed := some sp }
      let s2 : FanState :=
        if s1.speed ≠ some SPEED_OFF then { s1 with lastOnSpeed := s1.speed } else s1
      send_command c sendFails s2

/-- `SmartIRFan.async_oscillate` (fan.py lines 237-240): set `_oscillating`,
then dispatch unconditionally. -/
def async_oscillate (c : Commands) (sendFails : Bool) (s : FanState)
    (oscillating : Bool) : DispatchOutcome :=
  send_command c sendFails { s with oscillating := some oscillating }

/-- `SmartIRFan.async_set_direction` (fan.py lines 242-248): set `_direction`
unconditionally, dispatch only when the current speed is not `SPEED_OFF`. -/
def async_set_direction (c : Commands) (sendFails : Bool) (s : FanState)
    (direction : String) : DispatchOutcome :=
  let s1 : FanState := { s with direction := some direction }
  if s1.speed ≠ some SPEED_OFF then send_command c sendFails s1
  else { state := s1, sent := [], logged := [], raised := none }

/-- `SmartIRFan.async_turn_on` (fan.py lines 250-256): with no percentage,
compute `ordered_list_item_to_percentage(speed_list, last_on_speed or
speed_list[0])` (an `IndexError` on an empty list, a `ValueError` when the
item is not in the list) and delegate to `async_set_percentage`. -/
def async_turn_on (speedList : List String) (c : Commands) (sendFails : Bool)
    (s : FanState) (percentage : Option Nat) : DispatchOutcome :=
  match percentage with
  | some p => async_set_percentage speedList c sendFails s p
  | none =>
      let item? : Option String :=
        match s.lastOnSpeed with
        | some it => if it = "" then speedList.head? else some it
        | none => speedList.head?
      match item? with
      | none => { state := s, sent := [], logged := [], raised := some .indexError }
      | some it =>
          match ordered_list_item_to_percentage speedList it with
          | none => { state := s, sent := [], logged := [], raised := some .valueError }
          | some p => async_set_percentage speedList c sendFails s p

/-- `SmartIRFan.async_turn_off` (fan.py lines 258-259): exactly
`async_set_percentage(0)`. -/
def async_turn_off (speedList : List String) (c : Commands) (sendFails : Bool)
    (s : FanState) : DispatchOutcome :=
  async_set_percentage speedList c sendFails s 0

/-- The `state` property (fan.py lines 183-187): `STATE_ON` when
`_on_by_remote` or `_speed != SPEED_OFF`, else `SPEED_OFF`. -/
def reportedState (s : FanState) : String :=
  if s.onByRemote || s.speed ≠ some SPEED_OFF then STATE_ON else SPEED_OFF

/-- `SmartIRFan._async_power_sensor_changed` (fan.py lines 280-301).  The event
carries `old_state` and `new_state`, each `None` or an object whose `.state`
is a string.  `new_state is None` returns early; then the code evaluates
`new_state.state == old_state.state`, which raises `AttributeError` when
`old_state` is `None`; equal values return early; ON while `_speed` is off
sets `_on_by_remote` and makes `_speed` `None`; OFF clears `_on_by_remote`
and forces a non-off `_speed` to off.  The handler never touches the
transport, so `sent` is always empty. -/
def power_sensor_changed (oldState newState : Option String) (s : FanState) :
    DispatchOutcome :=
  match newState with
  | none => { state := s, sent := [], logged := [], raised := none }
  | some ns =>
      match oldState with
      | none => { state := s, sent := [], logged := [], raised := some .attributeError }
      | some os =>
          if ns = os then { state := s, sent := [], logged := [], raised := none }
          else
            let s1 : FanState :=
              if ns = STATE_ON ∧ s.speed = some SPEED_OFF then
                { s with onByRemote := true, speed := none }
              else s
            let s2 : FanState :=
              if ns = STATE_OFF then
                { s1 with onByRemote := false,
                          speed := if s1.speed ≠ some SPEED_OFF then some SPEED_OFF
                                   else s1.speed }
              else s1
            { state := s2, sent := [], logged := [], raised := none }

/-- The `__init__` defaults (fan.py lines 115-139): `_speed = SPEED_OFF`;
`_direction` becomes `DIRECTION_REVERSE` only when both `reverse` and
`forward` are command keys; `_oscillating` becomes `False` only when
`oscillate` is a command key; `_on_by_remote = False`. -/
def initState (c : Commands) : FanState :=
  { speed := some SPEED_OFF
    direction :=
      if (lookupNode c "reverse").isSome ∧ (lookupNode c "forward").isSome then
        some "reverse"
      else none
    lastOnSpeed := none
    oscillating := if (lookupNode c "oscillate").isSome then some false else none
    onByRemote := false }

/-- The restored attributes examined by `async_added_to_hass`: each field is
`some v` when the attribute key is present in the persisted state. -/
structure LastAttrs where
  speed : Option String
  direction : Option String
  last_on_speed : Option String
deriving Repr, DecidableEq

/-- `SmartIRFan.async_added_to_hass` (fan.py lines 150-173): when a persisted
last state exists, restore `_speed`, `_direction` (only with direction
support, i.e. both direction command keys present) and `_last_on_speed`, and
— still inside that branch — subscribe the power-sensor handler when
`self._power_sensor` is truthy.  Returns the state after restoration and
whether `async_track_state_change_event` was called. -/
def async_added_to_hass (c : Commands) (powerSensor : Option String)
    (lastState : Option LastAttrs) (s : FanState) : FanState × Bool :=
  match lastState with
  | none => (s, false)
  | some attrs =>
      let s1 : FanState :=
        match attrs.speed with
        | some sp => { s with speed := some sp }
        | none => s
      let s2 : FanState :=
        match attrs.direction with
        | some d =>
            if (lookupNode c "reverse").isSome ∧ (lookupNode c "forward").isSome then
              { s1 with direction := some d }
            else s1
        | none => s1
      let s3 : FanState :=
        match attrs.last_on_speed with
        | some l => { s2 with lastOnSpeed := some l }
        | none => s2
      let subscribed : Bool :=
        match powerSensor with
        | none => false
        | some p => p ≠ ""
      (s3, subscribed)

/-- The payloads `send_command` hands to the transport for a given resolution
result: one payload on success, none when resolution raised. -/
def exceptSent : Except PyError CmdNode → List CmdNode
  | .ok v => [v]
  | .error _ => []

/-- The payloads dispatched for a top-level table lookup: one when the key is
present, none when the lookup raises `KeyError`. -/
def optNodeList : Option CmdNode → List CmdNode
  | some v => [v]
  | none => []

/-- `_speed` holds a known level other than `SPEED_OFF` (in particular it is
not the indeterminate `None` left by a sensor-ON event). -/
def knownNonOffSpeed : Option String → Bool
  | some lvl => lvl != SPEED_OFF
  | none => false

/-- The reconciliation invariant: `_on_by_remote` and a known non-off `_speed`
never hold simultaneously. -/
def remoteInvariant (s : FanState) : Bool :=
  !(s.onByRemote && knownNonOffSpeed s.speed)

/-- One mutating operation on the fan: the five public entity commands plus a
power-sensor notification. -/
inductive FanOp where
  | setPercentage (p : Nat)
  | oscillate (b : Bool)
  | setDirection (d : String)
  | turnOn (p : Option Nat)
  | turnOff
  | sensorChanged (oldS newS : Option String)
deriving Repr, DecidableEq

/-- Run one operation against the fan state. -/
def runOp (speedList : List String) (c : Commands) (sendFails : Bool)
    (s : FanState) : FanOp → DispatchOutcome
  | .setPercentage p => async_set_percentage speedList c sendFails s p
  | .oscillate b => async_oscillate c sendFails s b
  | .setDirection d => async_set_direction c sendFails s d
  | .turnOn p => async_turn_on speedList c sendFails s p
  | .turnOff => async_turn_off speedList c sendFails s
  | .sensorChanged o n => power_sensor_changed o n s

/-- A concrete three-speed command table used to evaluate the theorems on
closed inputs. -/
def sampleCommands : Commands :=
  [("off", .payload "OFF"), ("oscillate", .payload "OSC"),
   ("forward", .table [("low", "FL"), ("medium", "FM"), ("high", "FH")]),
   ("reverse", .table [("low", "RL"), ("medium", "RM"), ("high", "RH")]),
   ("default", .table [("low", "DL"), ("medium", "DM"), ("high", "DH")])]

/-- The ordered speed list of the sample device. -/
def sampleSpeeds : List String := ["low", "medium", "high"]

/-- A sample oscillating, forward, low-speed state. -/
def sampleOscState : FanState :=
  { speed := some "low", direction := some "forward", lastOnSpeed := some "low",
    oscillating := some true, onByRemote := false }

/-- A sample non-oscillating, forward, low-speed state. -/
def sampleDirState : FanState :=
  { speed := some "low", direction := some "forward", lastOnSpeed := some "low",
    oscillating := some false, onByRemote := false }

/-- What `send_command` hands to the transport is exactly the resolution
result: the resolved payload on success, nothing on a resolution failure. -/
theorem send_command_sent (c : Commands) (sf : Bool) (s : FanState) :
    (send_command c sf s).sent = exceptSent (resolveCommand c s) := by
  simp only [send_command]
  split
  · next e heq =>
      rw [show resolveCommand c s = Except.error e from heq]
      rfl
  · next cmd heq =>
      rw [show resolveCommand c s = Except.ok cmd from heq]
      cases sf <;> rfl

/-- `send_command` mutates only `_on_by_remote` (cleared on entry); the rest
of the state is kept whether resolution or the transport send fails. -/
theorem send_command_state (c : Commands) (sf : Bool) (s : FanState) :
    (send_command c sf s).state = { s with onByRemote := false } := by
  simp only [send_command]
  split
  · rfl
  · cases sf <;> rfl

/-- C1: every dispatch resolves the payload with precedence
off > oscillate > directional-speed: an off speed selects the off-command
regardless of oscillation and direction; otherwise a truthy oscillating flag
selects the oscillate-command regardless of speed and direction; otherwise
the payload at `table[direction or "default"][speed]` is selected. -/
theorem claim1_dispatch_precedence (c : Commands) (sf : Bool) (s : FanState) :
    (s.speed = some SPEED_OFF →
      (send_command c sf s).sent = optNodeList (lookupNode c "off")) ∧
    (s.speed ≠ some SPEED_OFF → truthy s.oscillating = true →
      (send_command c sf s).sent = optNodeList (lookupNode c "oscillate")) ∧
    (s.speed ≠ some SPEED_OFF → truthy s.oscillating = false →
      (send_command c sf s).sent =
        exceptSent (dirSpeedLookup c (pyOr s.direction "default") s.speed)) := by
  refine ⟨fun h => ?_, fun h ho => ?_, fun h ho => ?_⟩ <;>
    rw [send_command_sent] <;> unfold resolveCommand
  · rw [if_pos h]
    cases lookupNode c "off" <;> rfl
  · rw [if_neg h, if_pos ho]
    cases lookupNode c "oscillate" <;> rfl
  · rw [if_neg h, if_neg (by simp [ho])]

/-- Witness for C1: over the sample table, an off state dispatches the
off-payload, an oscillating state the oscillate-payload, and a non-off
non-oscillating state the directional payload. -/
theorem claim1_dispatch_precedence_check :
    (send_command sampleCommands false (initState sampleCommands)).sent =
      [CmdNode.payload "OFF"] ∧
    (send_command sampleCommands false sampleOscState).sent = [CmdNode.payload "OSC"] ∧
    (send_command sampleCommands false sampleDirState).sent = [CmdNode.payload "FL"] := by
  refine ⟨?_, ?_, ?_⟩
  · rw [(claim1_dispatch_precedence sampleCommands false (initState sampleCommands)).1 rfl]
    decide
  · rw [(claim1_dispatch_precedence sampleCommands false sampleOscState).2.1
      (by decide) (by decide)]
    decide
  · rw [(claim1_dispatch_precedence sampleCommands false sampleDirState).2.2
      (by decide) (by decide)]
    decide

/-- C2: from any state with speed off, a sensor notification changing to ON
sets `_on_by_remote`, leaves the speed indeterminate (`None`), reports state
ON and never touches the transport; a subsequent notification changing to OFF
clears `_on_by_remote` and forces the speed to off, again without touching the
transport. -/
theorem claim2_sensor_reconciliation (s : FanState) (o : String)
    (h1 : s.speed = some SPEED_OFF) (h2 : o ≠ STATE_ON) :
    ((power_sensor_changed (some o) (some STATE_ON) s).state.onByRemote = true) ∧
    ((power_sensor_changed (some o) (some STATE_ON) s).state.speed = none) ∧
    reportedState (power_sensor_changed (some o) (some STATE_ON) s).state = STATE_ON ∧
    (power_sensor_changed (some o) (some STATE_ON) s).sent = [] ∧
    ((power_sensor_changed (some STATE_ON) (some STATE_OFF)
        (power_sensor_changed (some o) (some STATE_ON) s).state).state.onByRemote
      = false) ∧
    ((power_sensor_changed (some STATE_ON) (some STATE_OFF)
        (power_sensor_changed (some o) (some STATE_ON) s).state).state.speed
      = some SPEED_OFF) ∧
    (power_sensor_changed (some STATE_ON) (some STATE_OFF)
        (power_sensor_changed (some o) (some STATE_ON) s).state).sent = [] := by
  have hne : ("on" : String) ≠ o := fun hh => h2 hh.symm
  have h1' : s.speed = some "off" := h1
  simp [power_sensor_changed, reportedState, STATE_ON, STATE_OFF, SPEED_OFF, hne, h1']

/-- Witness for C2 at the sample device's initial state, with the sensor first
reporting ON (from "off") and then OFF. -/
theorem claim2_sensor_reconciliation_check :
    ((power_sensor_changed (some "off") (some STATE_ON)
        (initState sampleCommands)).state.speed = none) ∧
    ((power_sensor_changed (some STATE_ON) (some STATE_OFF)
        (power_sensor_changed (some "off") (some STATE_ON)
          (initState sampleCommands)).state).state.speed = some SPEED_OFF) :=
  ⟨(claim2_sensor_reconciliation (initState sampleCommands) "off" rfl (by decide)).2.1,
   (claim2_sensor_reconciliation (initState sampleCommands) "off" rfl
      (by decide)).2.2.2.2.2.1⟩

/-- C3: `async_set_percentage 0` forces the speed to off and dispatches the
off-command whatever the oscillation and direction are, and `async_turn_off`
is exactly `async_set_percentage 0`. -/
theorem claim3_percentage_zero (speedList : List String) (c : Commands) (sf : Bool)
    (s : FanState) (cmd : CmdNode) (hoff : lookupNode c "off" = some cmd) :
    ((async_set_percentage speedList c sf s 0).state.speed = some SPEED_OFF) ∧
    ((async_set_percentage speedList c sf s 0).sent = [cmd]) ∧
    async_turn_off speedList c sf s = async_set_percentage speedList c sf s 0 := by
  refine ⟨?_, ?_, rfl⟩
  · show (send_command c sf { s with speed := some SPEED_OFF }).state.speed
      = some SPEED_OFF
    rw [send_command_state]
  · show (send_command c sf { s with speed := some SPEED_OFF }).sent = [cmd]
    rw [send_command_sent]
    unfold resolveCommand
    rw [if_pos rfl, hoff]
    rfl

/-- Witness for C3 over the sample table from an oscillating, forward state. -/
theorem claim3_percentage_zero_check :
    ((async_set_percentage sampleSpeeds sampleCommands false
      { speed := some "high", direction := some "forward", lastOnSpeed := some "high",
        oscillating := some true, onByRemote := false } 0).sent =
      [CmdNode.payload "OFF"]) :=
  (claim3_percentage_zero sampleSpeeds sampleCommands false
    { speed := some "high", direction := some "forward", lastOnSpeed := some "high",
      oscillating := some true, onByRemote := false }
    (CmdNode.payload "OFF") rfl).2.1

/-- C4: `async_set_direction d` always records `d` in the direction field; in a
non-oscillating resolvable state it calls the transport exactly when the
current speed is non-off, and then exactly once with `table[d][speed]`. -/
theorem claim4_set_direction (c : Commands) (sf : Bool) (s : FanState) (d : String)
    (p : CmdNode) (hd : d ≠ "") (hosc : truthy s.oscillating = false)
    (hp : s.speed ≠ some SPEED_OFF → dirSpeedLookup c d s.speed = .ok p) :
    ((async_set_direction c sf s d).state.direction = some d) ∧
    (((async_set_direction c sf s d).sent ≠ []) ↔ s.speed ≠ some SPEED_OFF) ∧
    (s.speed ≠ some SPEED_OFF → (async_set_direction c sf s d).sent = [p]) := by
  by_cases hs : s.speed = some SPEED_OFF
  · have houtcome : async_set_direction c sf s d =
        { state := { s with direction := some d }, sent := [], logged := [],
          raised := none } := by
      unfold async_set_direction
      rw [if_neg (by simp [hs])]
    rw [houtcome]
    refine ⟨rfl, by simp [hs], fun hcon => absurd hs hcon⟩
  · have hstep : async_set_direction c sf s d =
        send_command c sf { s with direction := some d } := by
      unfold async_set_direction
      rw [if_pos hs]
    have hsent : (async_set_direction c sf s d).sent = [p] := by
      rw [hstep, send_command_sent]
      unfold resolveCommand
      rw [if_neg hs, if_neg (by simp [hosc])]
      show exceptSent (dirSpeedLookup c (pyOr (some d) "default") s.speed) = [p]
      rw [show pyOr (some d) "default" = d from by simp [pyOr, hd], hp hs]
      rfl
    refine ⟨?_, ?_, fun _ => hsent⟩
    · rw [hstep, send_command_state]
    · rw [hsent]
      simp [hs]

/-- Witness for C4 over the sample table: redirecting while off records the
direction without a transmission; redirecting at speed "low" transmits the
directional payload once. -/
theorem claim4_set_direction_check :
    ((async_set_direction sampleCommands false (initState sampleCommands)
        "forward").sent ≠ [] ↔
      (initState sampleCommands).speed ≠ some SPEED_OFF) ∧
    (async_set_direction sampleCommands false sampleDirState "reverse").sent =
      [CmdNode.payload "RL"] :=
  ⟨(claim4_set_direction sampleCommands false (initState sampleCommands) "forward"
      (CmdNode.payload "FL") (by decide) (by decide)
      (fun h => absurd rfl h)).2.1,
   (claim4_set_direction sampleCommands false sampleDirState "reverse"
      (CmdNode.payload "RL") (by decide) (by decide)
      (fun _ => rfl)).2.2 (by decide)⟩

/-- C5: `async_turn_on` without a percentage behaves as `async_set_percentage`
at the percentage of `_last_on_speed` when that is known (truthy), and at the
percentage of the first declared speed level otherwise. -/
theorem claim5_turn_on_resume (speedList : List String) (c : Commands) (sf : Bool)
    (s : FanState) (l f : String) (p q : Nat) :
    ((s.lastOnSpeed = some l ∧ l ≠ "" ∧
        ordered_list_item_to_percentage speedList l = some p) →
      async_turn_on speedList c sf s none = async_set_percentage speedList c sf s p) ∧
    (((s.lastOnSpeed = none ∨ s.lastOnSpeed = some "") ∧ speedList.head? = some f ∧
        ordered_list_item_to_percentage speedList f = some q) →
      async_turn_on speedList c sf s none = async_set_percentage speedList c sf s q) := by
  constructor
  · rintro ⟨hlast, hne, holitp⟩
    simp only [async_turn_on, hlast, if_neg hne, holitp]
  · rintro ⟨hlast, hhead, holitp⟩
    rcases hlast with hlast | hlast
    · simp only [async_turn_on, hlast, hhead, holitp]
    · simp only [async_turn_on, hlast, if_pos (rfl : ("" : String) = ""), if_true,
        hhead, holitp]

/-- Witness for C5 over the sample device: with `_last_on_speed = "high"` the
bare turn-on is `async_set_percentage 100`; with no `_last_on_speed` it is
`async_set_percentage` at the lowest level's percentage, 33. -/
theorem claim5_turn_on_resume_check :
    (async_turn_on sampleSpeeds sampleCommands false
        { initState sampleCommands with lastOnSpeed := some "high" } none =
      async_set_percentage sampleSpeeds sampleCommands false
        { initState sampleCommands with lastOnSpeed := some "high" } 100) ∧
    (async_turn_on sampleSpeeds sampleCommands false (initState sampleCommands) none =
      async_set_percentage sampleSpeeds sampleCommands false
        (initState sampleCommands) 33) :=
  ⟨(claim5_turn_on_resume sampleSpeeds sampleCommands false
      { initState sampleCommands with lastOnSpeed := some "high" } "high" "low" 100 33).1
      ⟨rfl, by decide, by decide⟩,
   (claim5_turn_on_resume sampleSpeeds sampleCommands false
      (initState sampleCommands) "high" "low" 100 33).2
      ⟨Or.inl rfl, rfl, by decide⟩⟩

/-- An index returned by `listIndex` for a member is within bounds. -/
theorem listIndex_lt_length {l : List String} {a : String} (h : a ∈ l) :
    listIndex l a < l.length := by
  induction l with
  | nil => cases h
  | cons x rest ih =>
      unfold listIndex
      by_cases hx : x = a
      · rw [if_pos hx]
        simp
      · rw [if_neg hx]
        have hmem : a ∈ rest := by
          cases h with
          | head => exact absurd rfl hx
          | tail _ hm => exact hm
        simpa using Nat.succ_lt_succ (ih hmem)

/-- The element at a `listIndex` position is the sought item. -/
theorem listIndex_get : ∀ (l : List String) (a : String)
    (hlt : listIndex l a < l.length), l.get ⟨listIndex l a, hlt⟩ = a := by
  intro l a
  induction l with
  | nil => intro hlt; exact absurd hlt (by simp [listIndex])
  | cons x rest ih =>
      intro hlt
      by_cases hx : x = a
      · simp [listIndex, hx]
      · have hlt' : listIndex rest a < rest.length := by
          have := hlt
          simp only [listIndex, if_neg hx, List.length_cons] at this
          omega
        have hgoal := ih hlt'
        simp only [listIndex, if_neg hx]
        exact hgoal

/-- With at most 100 levels every bucket is at least one percent wide, so the
scaled-position floor-division is strictly monotone. -/
theorem bucket_strict_mono {n i j : Nat} (hn : 0 < n) (h100 : n ≤ 100) (hij : i < j) :
    i * 100 / n < j * 100 / n := by
  have h1 : i * 100 + n ≤ j * 100 := by
    have h2 : (i + 1) * 100 ≤ j * 100 := Nat.mul_le_mul_right 100 hij
    omega
  have h3 : (i * 100 + n) / n ≤ j * 100 / n := Nat.div_le_div_right h1
  rw [Nat.add_div_right _ hn] at h3
  omega

/-- The scan loop returns the element at the first position whose bucket upper
bound reaches the percentage. -/
theorem ptoliGo_eq_get (n p : Nat) (rest : List String) :
    ∀ (pos i : Nat) (hi : i < rest.length),
      (∀ j, j < i → ¬ (p ≤ (pos + j) * 100 / n)) → p ≤ (pos + i) * 100 / n →
      ptoliGo n p rest pos = some (rest.get ⟨i, hi⟩) := by
  induction rest with
  | nil => intro pos i hi _ _; exact absurd hi (by simp)
  | cons sp rest ih =>
      intro pos i hi hmiss hhit
      cases i with
      | zero =>
          unfold ptoliGo
          rw [if_pos (by simpa using hhit)]
          rfl
      | succ i =>
          unfold ptoliGo
          rw [if_neg (by simpa using hmiss 0 (Nat.succ_pos i))]
          have hi' : i < rest.length := Nat.lt_of_succ_lt_succ (by simpa using hi)
          have h1 : ∀ j, j < i → ¬ (p ≤ (pos + 1 + j) * 100 / n) := by
            intro j hj
            have hm := hmiss (j + 1) (Nat.succ_lt_succ hj)
            have he : pos + (j + 1) = pos + 1 + j := by omega
            rwa [he] at hm
          have h2 : p ≤ (pos + 1 + i) * 100 / n := by
            have he : pos + (i + 1) = pos + 1 + i := by omega
            rwa [he] at hhit
          rw [ih (pos + 1) i hi' h1 h2]
          rfl

/-- The percentage assigned to a declared level maps back to exactly that
level, provided the list has at most 100 entries. -/
theorem percentage_round_trip (l : List String) (a : String) (h : a ∈ l)
    (h100 : l.length ≤ 100) :
    percentage_to_ordered_list_item l ((listIndex l a + 1) * 100 / l.length)
      = some a := by
  have hlen : 0 < l.length := List.length_pos.mpr (List.ne_nil_of_mem h)
  have hidx : listIndex l a < l.length := listIndex_lt_length h
  unfold percentage_to_ordered_list_item
  rw [if_neg (Nat.pos_iff_ne_zero.mp hlen)]
  have hgo : ptoliGo l.length ((listIndex l a + 1) * 100 / l.length) l 1 =
      some (l.get ⟨listIndex l a, hidx⟩) := by
    apply ptoliGo_eq_get
    · intro j hj
      have hlt : (1 + j) * 100 / l.length <
          (listIndex l a + 1) * 100 / l.length :=
        bucket_strict_mono hlen h100 (by omega)
      omega
    · rw [Nat.add_comm 1 (listIndex l a)]
  rw [hgo, listIndex_get]

/-- The percentage assigned to a declared level is nonzero when the list has
at most 100 entries. -/
theorem bucket_pos {l : List String} {a : String} (h : a ∈ l)
    (h100 : l.length ≤ 100) : (listIndex l a + 1) * 100 / l.length ≠ 0 := by
  have hlen : 0 < l.length := List.length_pos.mpr (List.ne_nil_of_mem h)
  have h1 : l.length ≤ (listIndex l a + 1) * 100 := by omega
  have h2 : 0 < (listIndex l a + 1) * 100 / l.length := Nat.div_pos h1 hlen
  omega

/-- C6: for every declared speed level `L`, `async_set_percentage` at the
percentage corresponding to `L` sets the speed to exactly `L`, updates
`_last_on_speed` to `L`, and (in a non-oscillating state whose directional
entry exists) dispatches the payload at `table[direction or "default"][L]`. -/
theorem claim6_percentage_round_trip (speedList : List String) (c : Commands)
    (sf : Bool) (s : FanState) (L : String) (pv : CmdNode)
    (hL : L ∈ speedList) (hLoff : L ≠ SPEED_OFF) (h100 : speedList.length ≤ 100)
    (hosc : truthy s.oscillating = false)
    (hpv : dirSpeedLookup c (pyOr s.direction "default") (some L) = .ok pv) :
    ((async_set_percentage speedList c sf s
        ((listIndex speedList L + 1) * 100 / speedList.length)).state.speed
      = some L) ∧
    ((async_set_percentage speedList c sf s
        ((listIndex speedList L + 1) * 100 / speedList.length)).state.lastOnSpeed
      = some L) ∧
    ((async_set_percentage speedList c sf s
        ((listIndex speedList L + 1) * 100 / speedList.length)).sent = [pv]) := by
  have hne0 := bucket_pos hL h100
  have hrt := percentage_round_trip speedList L hL h100
  have hcond : ¬ ((some L : Option String) = some SPEED_OFF) :=
    fun hh => hLoff (Option.some.inj hh)
  have hstep : async_set_percentage speedList c sf s
      ((listIndex speedList L + 1) * 100 / speedList.length) =
      send_command c sf { s with speed := some L, lastOnSpeed := some L } := by
    simp only [async_set_percentage, if_neg hne0, hrt]
    rw [if_pos hcond]
  refine ⟨?_, ?_, ?_⟩
  · rw [hstep, send_command_state]
  · rw [hstep, send_command_state]
  · rw [hstep, send_command_sent]
    unfold resolveCommand
    rw [if_neg hcond, if_neg (by simp [hosc])]
    show exceptSent (dirSpeedLookup c (pyOr s.direction "default") (some L)) = [pv]
    rw [hpv]
    rfl

/-- Witness for C6: the middle sample level "medium" maps to percentage 66,
which maps back to "medium" and dispatches the reverse-direction payload of
the initial state. -/
theorem claim6_percentage_round_trip_check :
    ((async_set_percentage sampleSpeeds sampleCommands false
        (initState sampleCommands)
        ((listIndex sampleSpeeds "medium" + 1) * 100 / sampleSpeeds.length)).state.speed
      = some "medium") ∧
    ((async_set_percentage sampleSpeeds sampleCommands false
        (initState sampleCommands)
        ((listIndex sampleSpeeds "medium" + 1) * 100 / sampleSpeeds.length)).sent
      = [CmdNode.payload "RM"]) :=
  ⟨(claim6_percentage_round_trip sampleSpeeds sampleCommands false
      (initState sampleCommands) "medium" (CmdNode.payload "RM")
      (by decide) (by decide) (by decide) rfl rfl).1,
   (claim6_percentage_round_trip sampleSpeeds sampleCommands false
      (initState sampleCommands) "medium" (CmdNode.payload "RM")
      (by decide) (by decide) (by decide) rfl rfl).2.2⟩

/-- Counterexample to C7 as stated: with an empty command table the off-state
dispatch fails to resolve, the transport is never called and the failure is
surfaced to the caller — but nothing at all is logged, contradicting "the
failure is logged as a warning". -/
theorem claim7_counterexample :
    (send_command [] false (initState [])).raised = some PyError.keyError ∧
    (send_command [] false (initState [])).sent = [] ∧
    (send_command [] false (initState [])).logged = [] :=
  ⟨rfl, rfl, rfl⟩

/-- C7 (amended): a resolution failure never reaches the transport, is not
logged by this layer, and surfaces to the caller, the state mutation being
kept; a transport-send failure is logged only and not raised, the state
mutation again being kept; in particular the speed and last-on-speed written
by `async_set_percentage` survive any dispatch failure (no rollback, no
retry). -/
theorem claim7_failure_semantics (speedList : List String) (c : Commands)
    (sf : Bool) (s : FanState) (p : Nat) :
    (∀ e, resolveCommand c s = .error e →
      send_command c sf s =
        { state := { s with onByRemote := false }, sent := [], logged := [],
          raised := some e }) ∧
    (∀ cmd, resolveCommand c s = .ok cmd →
      send_command c true s =
        { state := { s with onByRemote := false }, sent := [cmd],
          logged := [.exceptionLogged], raised := none }) ∧
    (∀ sp, p ≠ 0 → percentage_to_ordered_list_item speedList p = some sp →
      sp ≠ SPEED_OFF →
      (async_set_percentage speedList c sf s p).state =
        { s with speed := some sp, lastOnSpeed := some sp, onByRemote := false }) := by
  refine ⟨fun e he => ?_, fun cmd hc => ?_, fun sp hp hptoli hspoff => ?_⟩
  · simp only [send_command]
    split
    · next e' heq =>
        rw [show resolveCommand c s = Except.error e' from heq] at he
        cases he
        rfl
    · next cmd heq =>
        rw [show resolveCommand c s = Except.ok cmd from heq] at he
        cases he
  · simp only [send_command]
    split
    · next e' heq =>
        rw [show resolveCommand c s = Except.error e' from heq] at hc
        cases hc
    · next cmd' heq =>
        rw [show resolveCommand c s = Except.ok cmd' from heq] at hc
        cases hc
        rfl
  · have hcond : ¬ ((some sp : Option String) = some SPEED_OFF) :=
      fun hh => hspoff (Option.some.inj hh)
    have hstep : async_set_percentage speedList c sf s p =
        send_command c sf { s with speed := some sp, lastOnSpeed := some sp } := by
      simp only [async_set_percentage, if_neg hp, hptoli]
      rw [if_pos hcond]
    rw [hstep, send_command_state]

/-- Witness for C7 (amended): the empty table's resolution failure, a
transport failure over the sample table, and a percentage-60 mutation that
survives a transport failure. -/
theorem claim7_failure_semantics_check :
    (send_command [] false (initState []) =
      { state := { initState [] with onByRemote := false }, sent := [], logged := [],
        raised := some PyError.keyError }) ∧
    (send_command sampleCommands true (initState sampleCommands) =
      { state := { initState sampleCommands with onByRemote := false },
        sent := [CmdNode.payload "OFF"], logged := [LogEntry.exceptionLogged],
        raised := none }) ∧
    ((async_set_percentage sampleSpeeds sampleCommands true
        (initState sampleCommands) 60).state =
      { initState sampleCommands with
          speed := some "medium"
          lastOnSpeed := some "medium"
          onByRemote := false }) :=
  ⟨(claim7_failure_semantics sampleSpeeds [] false (initState []) 60).1
      PyError.keyError rfl,
   (claim7_failure_semantics sampleSpeeds sampleCommands false
      (initState sampleCommands) 60).2.1 (CmdNode.payload "OFF") rfl,
   (claim7_failure_semantics sampleSpeeds sampleCommands true
      (initState sampleCommands) 60).2.2 "medium" (by decide) (by decide) (by decide)⟩

/-- `send_command` always clears `_on_by_remote` in the resulting state. -/
theorem send_command_clears_remote (c : Commands) (sf : Bool) (s : FanState) :
    remoteInvariant (send_command c sf s).state = true := by
  rw [send_command_state]
  simp [remoteInvariant]

/-- `async_set_percentage` preserves the reconciliation invariant. -/
theorem async_set_percentage_invariant (speedList : List String) (c : Commands)
    (sf : Bool) (s : FanState) (p : Nat) (h : remoteInvariant s = true) :
    remoteInvariant (async_set_percentage speedList c sf s p).state = true := by
  simp only [async_set_percentage]
  split
  · exact h
  · exact send_command_clears_remote c sf _

/-- C8: every operation — user command or sensor notification — preserves the
invariant that `_on_by_remote` and a known non-off `_speed` never hold
simultaneously; and a sensor-reported ON while the speed is off leaves the
speed indeterminate (`None`). -/
theorem claim8_invariant_preserved (speedList : List String) (c : Commands)
    (sf : Bool) (s : FanState) (op : FanOp) (h : remoteInvariant s = true) :
    remoteInvariant (runOp speedList c sf s op).state = true ∧
    (∀ o, s.speed = some SPEED_OFF → o ≠ STATE_ON →
      (runOp speedList c sf s (.sensorChanged (some o) (some STATE_ON))).state.speed
        = none) := by
  have hsensor : ∀ oldS newS,
      remoteInvariant (power_sensor_changed oldS newS s).state = true := by
    intro oldS newS
    cases newS with
    | none => simp only [power_sensor_changed]; exact h
    | some ns =>
        cases oldS with
        | none => simp only [power_sensor_changed]; exact h
        | some os =>
            simp only [power_sensor_changed]
            by_cases heq : ns = os
            · rw [if_pos heq]
              exact h
            · rw [if_neg heq]
              by_cases hon : ns = STATE_ON ∧ s.speed = some SPEED_OFF
              · have hnoff : ¬ (ns = STATE_OFF) :=
                  fun hh => absurd (hon.1.symm.trans hh) (by decide)
                rw [if_pos hon, if_neg hnoff]
                simp [remoteInvariant, knownNonOffSpeed]
              · by_cases hoffb : ns = STATE_OFF
                · rw [if_neg hon, if_pos hoffb]
                  simp [remoteInvariant]
                · rw [if_neg hon, if_neg hoffb]
                  exact h
  constructor
  · cases op with
    | setPercentage p => exact async_set_percentage_invariant speedList c sf s p h
    | oscillate b => exact send_command_clears_remote c sf _
    | setDirection d =>
        simp only [runOp, async_set_direction]
        split
        · exact send_command_clears_remote c sf _
        · next hs =>
            have hs' : s.speed = some SPEED_OFF := by
              by_contra hcon
              exact hs hcon
            simp [remoteInvariant, hs', knownNonOffSpeed, SPEED_OFF]
    | turnOn p =>
        cases p with
        | some p => exact async_set_percentage_invariant speedList c sf s p h
        | none =>
            simp only [runOp, async_turn_on]
            cases hl : s.lastOnSpeed with
            | none =>
                cases hh : speedList.head? with
                | none =>
                    simp only [hh]
                    exact h
                | some f =>
                    cases holitp : ordered_list_item_to_percentage speedList f with
                    | none =>
                        simp only [hh, holitp]
                        exact h
                    | some p =>
                        simp only [hh, holitp]
                        exact async_set_percentage_invariant speedList c sf s p h
            | some it =>
                by_cases hit : it = ""
                · cases hh : speedList.head? with
                  | none =>
                      simp only [if_pos hit, hh]
                      exact h
                  | some f =>
                      cases holitp : ordered_list_item_to_percentage speedList f with
                      | none =>
                          simp only [if_pos hit, hh, holitp]
                          exact h
                      | some p =>
                          simp only [if_pos hit, hh, holitp]
                          exact async_set_percentage_invariant speedList c sf s p h
                · cases holitp : ordered_list_item_to_percentage speedList it with
                  | none =>
                      simp only [if_neg hit, holitp]
                      exact h
                  | some p =>
                      simp only [if_neg hit, holitp]
                      exact async_set_percentage_invariant speedList c sf s p h
    | turnOff => exact async_set_percentage_invariant speedList c sf s 0 h
    | sensorChanged oldS newS => exact hsensor oldS newS
  · intro o hoff hone
    have hne : ("on" : String) ≠ o := fun hh => hone hh.symm
    have hoff' : s.speed = some "off" := hoff
    simp [runOp, power_sensor_changed, STATE_ON, STATE_OFF, SPEED_OFF, hne, hoff']

/-- Witness for C8: a sensor-ON notification at the sample initial state keeps
the invariant and leaves the speed indeterminate. -/
theorem claim8_invariant_preserved_check :
    remoteInvariant (runOp sampleSpeeds sampleCommands false
      (initState sampleCommands)
      (FanOp.sensorChanged (some "off") (some STATE_ON))).state = true ∧
    (runOp sampleSpeeds sampleCommands false (initState sampleCommands)
      (FanOp.sensorChanged (some "off") (some STATE_ON))).state.speed = none :=
  ⟨(claim8_invariant_preserved sampleSpeeds sampleCommands false
      (initState sampleCommands)
      (FanOp.sensorChanged (some "off") (some STATE_ON)) (by decide)).1,
   (claim8_invariant_preserved sampleSpeeds sampleCommands false
      (initState sampleCommands)
      (FanOp.sensorChanged (some "off") (some STATE_ON)) (by decide)).2
      "off" rfl (by decide)⟩

/-- Counterexample to C9 as stated: a device configured with a power sensor
but starting with no persisted last state never subscribes the sensor handler
(the subscription call sits inside the `last_state is not None` branch). -/
theorem claim9_counterexample :
    (async_added_to_hass sampleCommands (some "sensor.fan_power") none
      (initState sampleCommands)).2 = false := rfl

/-- C9 (amended): with a power sensor configured, the reconciliation handler
is subscribed at startup exactly when a persisted last state was restored. -/
theorem claim9_subscription (c : Commands) (ps : Option String)
    (ls : Option LastAttrs) (s : FanState) (p : String)
    (hp : ps = some p) (hne : p ≠ "") :
    ((async_added_to_hass c ps ls s).2 = true ↔ ls.isSome = true) := by
  subst hp
  cases ls with
  | none => simp [async_added_to_hass]
  | some attrs => simp [async_added_to_hass, hne]

/-- Witness for C9 (amended): with a restored last state present the sample
device's sensor is subscribed. -/
theorem claim9_subscription_check :
    (async_added_to_hass sampleCommands (some "sensor.fan_power")
        (some { speed := none, direction := none, last_on_speed := none })
        (initState sampleCommands)).2 = true ↔
      (some { speed := none, direction := none,
              last_on_speed := none } : Option LastAttrs).isSome = true :=
  claim9_subscription sampleCommands (some "sensor.fan_power")
    (some { speed := none, direction := none, last_on_speed := none })
    (initState sampleCommands) "sensor.fan_power" rfl (by decide)

/-- C10: the first sensor notification after startup carries `old_state =
None` with a present new value; the handler dereferences `old_state.state`
and raises `AttributeError` instead of evaluating totally (the state is left
unchanged and nothing is dispatched). -/
theorem claim10_handler_crash :
    (power_sensor_changed none (some STATE_ON) (initState sampleCommands)).raised
      = some PyError.attributeError ∧
    (power_sensor_changed none (some STATE_ON) (initState sampleCommands)).state
      = initState sampleCommands ∧
    (power_sensor_changed none (some STATE_ON) (initState sampleCommands)).sent
      = [] :=
  ⟨rfl, rfl, rfl⟩

end SmartIRFan
